import Mathlib

/-!
# Frontend options of the Swift compiler: action classification

A shallow embedding of `include/swift/Frontend/FrontendOptions.h`: the
`FrontendOptions` record with the defaults of its member initialisers, the
`ActionType` enumeration in declaration order, and the three member functions
the header defines inline (`isCreatingSIL`, `getPCHHashComponents`,
`isCompilingExactlyOneSwiftFile`).

The header only declares the static action queries (`isActionImmediate`,
`doesActionProduceOutput`, `needsProperModuleName`, `canActionEmitDependencies`)
and `hasUnusedDependenciesFilePath`; their bodies are not part of the sources at
hand, so they are modelled from the design document and marked as such.
`determineFallbackModuleName` is declared too, returning a non-owning
`StringRef`; the design document has it build a name with replaced characters,
which such a view cannot hold, so it is left without a model.
-/

namespace swift

/-! ## Types the header takes from other headers -/

/-- Modelled from the spec: the enumeration `InputFileKind` is declared in
`swift/Frontend/InputFile.h`, which is not among the sources. The header at hand
names a single enumerator, `IFK_Swift` (Swift source code); every other
enumerator is represented as `other n`. -/
inductive InputFileKind where
  | IFK_Swift
  | other (tag : Nat)
  deriving DecidableEq, Repr

/-- Modelled from the spec: the input descriptor `InputFile` of
`swift/Frontend/InputFile.h` (not among the sources), "a source path and an
optional explicit output path". -/
structure InputFile where
  sourcePath : String
  outputPath : Option String := none
  deriving DecidableEq, Repr

/-- Modelled from the spec: the class `FrontendInputsAndOutputs` of
`swift/Frontend/FrontendInputsAndOutputs.h` (not among the sources), an "ordered
sequence of input descriptors". -/
structure FrontendInputsAndOutputs where
  AllInputs : List InputFile := []
  deriving DecidableEq, Repr

/-- Modelled from the spec: `FrontendInputsAndOutputs::hasSingleInput`, declared
in the missing header; the input set holds exactly one input. -/
def FrontendInputsAndOutputs.hasSingleInput (io : FrontendInputsAndOutputs) : Bool :=
  io.AllInputs.length == 1

/-! ## The enumerations of `FrontendOptions` -/

/-- The enumeration `FrontendOptions::ActionType`, enumerators in declaration order. -/
inductive FrontendOptions.ActionType where
  | NoneAction
  | Parse
  | Typecheck
  | DumpParse
  | DumpInterfaceHash
  | EmitSyntax
  | DumpAST
  | PrintAST
  | DumpScopeMaps
  | DumpTypeRefinementContexts
  | EmitImportedModules
  | EmitPCH
  | EmitSILGen
  | EmitSIL
  | EmitModuleOnly
  | MergeModules
  | EmitSIBGen
  | EmitSIB
  | Immediate
  | REPL
  | EmitAssembly
  | EmitIR
  | EmitBC
  | EmitObject
  deriving DecidableEq, Repr

/-- The underlying value of an `ActionType` enumerator: no enumerator has an
initialiser, so the first is 0 and each next one is one more. The relational
operators of a C++ scoped enumeration compare these values. -/
def FrontendOptions.ActionType.toNat : FrontendOptions.ActionType → Nat
  | .NoneAction => 0
  | .Parse => 1
  | .Typecheck => 2
  | .DumpParse => 3
  | .DumpInterfaceHash => 4
  | .EmitSyntax => 5
  | .DumpAST => 6
  | .PrintAST => 7
  | .DumpScopeMaps => 8
  | .DumpTypeRefinementContexts => 9
  | .EmitImportedModules => 10
  | .EmitPCH => 11
  | .EmitSILGen => 12
  | .EmitSIL => 13
  | .EmitModuleOnly => 14
  | .MergeModules => 15
  | .EmitSIBGen => 16
  | .EmitSIB => 17
  | .Immediate => 18
  | .REPL => 19
  | .EmitAssembly => 20
  | .EmitIR => 21
  | .EmitBC => 22
  | .EmitObject => 23

/-- The enumeration `FrontendOptions::TBDValidationMode`. -/
inductive FrontendOptions.TBDValidationMode where
  | None
  | MissingFromTBD
  | All
  deriving DecidableEq, Repr

/-- The enumeration `FrontendOptions::DebugCrashMode`. -/
inductive FrontendOptions.DebugCrashMode where
  | None
  | AssertAfterParse
  | CrashAfterParse
  deriving DecidableEq, Repr

/-! ## The options record -/

/-- The data members of `class FrontendOptions`, in declaration order, each with
the default of its member initialiser (an empty string or vector where there is
none). `unsigned` members are natural numbers; no arithmetic is done on them. -/
structure FrontendOptions where
  InputsAndOutputs : FrontendInputsAndOutputs := {}
  InputKind : InputFileKind := InputFileKind.IFK_Swift
  ImplicitImportModuleNames : List String := []
  ImplicitObjCHeaderPath : String := ""
  ModuleName : String := ""
  ModuleOutputPath : String := ""
  ModuleDocOutputPath : String := ""
  ModuleLinkName : String := ""
  ObjCHeaderOutputPath : String := ""
  SerializedDiagnosticsPath : String := ""
  DependenciesFilePath : String := ""
  ReferenceDependenciesFilePath : String := ""
  FixitsOutputPath : String := ""
  LoadedModuleTracePath : String := ""
  TBDPath : String := ""
  ImmediateArgv : List String := []
  LLVMArgs : List String := []
  DumpAPIPath : String := ""
  GroupInfoPath : String := ""
  IndexStorePath : String := ""
  IndexSystemModules : Bool := false
  WarnLongFunctionBodies : Nat := 0
  WarnLongExpressionTypeChecking : Nat := 0
  SolverExpressionTimeThreshold : Nat := 0
  VerifyGenericSignaturesInModule : String := ""
  RequestedAction : FrontendOptions.ActionType := FrontendOptions.ActionType.NoneAction
  ParseStdlib : Bool := false
  AlwaysSerializeDebuggingOptions : Bool := false
  DebugTimeFunctionBodies : Bool := false
  DebugTimeExpressionTypeChecking : Bool := false
  DebugTimeCompilation : Bool := false
  StatsOutputDir : String := ""
  TraceStats : Bool := false
  EnableSerializationNestedTypeLookupTable : Bool := true
  EnableSourceImport : Bool := false
  EnableTesting : Bool := false
  EnableResilience : Bool := false
  EmitVerboseSIL : Bool := false
  ImportUnderlyingModule : Bool := false
  SerializeBridgingHeader : Bool := false
  PrintStats : Bool := false
  PrintClangStats : Bool := false
  PlaygroundTransform : Bool := false
  PCMacro : Bool := false
  PlaygroundHighPerformance : Bool := false
  PrintHelp : Bool := false
  PrintHelpHidden : Bool := false
  EmitSortedSIL : Bool := false
  ValidateTBDAgainstIR : FrontendOptions.TBDValidationMode := FrontendOptions.TBDValidationMode.None
  TBDInstallName : String := ""
  CrashMode : FrontendOptions.DebugCrashMode := FrontendOptions.DebugCrashMode.None
  DumpScopeMapLocations : List (Nat × Nat) := []
  deriving Repr

namespace FrontendOptions

/-! ## Member functions defined in the header -/

/-- The member `bool isCreatingSIL()`: `RequestedAction >= ActionType::EmitSILGen`. -/
def isCreatingSIL (o : FrontendOptions) : Bool :=
  decide (o.RequestedAction.toNat ≥ ActionType.EmitSILGen.toNat)

/-- The member `getPCHHashComponents`: `return llvm::hash_value(0);`. The LLVM
library function `llvm::hash_value` on integers is the parameter `hash_value`; a
`hash_code` wraps a `size_t`, here a natural number. -/
def getPCHHashComponents (hash_value : Int → Nat) (_o : FrontendOptions) : Nat :=
  hash_value 0

/-- The member `isCompilingExactlyOneSwiftFile`:
`InputKind == InputFileKind::IFK_Swift && InputsAndOutputs.hasSingleInput()`. -/
def isCompilingExactlyOneSwiftFile (o : FrontendOptions) : Bool :=
  o.InputKind == InputFileKind.IFK_Swift && o.InputsAndOutputs.hasSingleInput

/-! ## Action categories of the design document -/

/-- The nine action categories the design document names in its data model. -/
inductive Category where
  | ParseOnly
  | TypeCheckOnly
  | ModuleIntrospection
  | BridgingHeader
  | SILStage
  | ModuleEmission
  | Interpretation
  | CodeGeneration
  | None
  deriving DecidableEq, Repr

/-- The members the design document lists for each category, in its order and
by its names; `None` ("no action requested") is the enumerator `NoneAction`. -/
def Category.members : Category → List ActionType
  | .ParseOnly =>
      [.Parse, .DumpParse, .DumpInterfaceHash, .EmitSyntax, .DumpScopeMaps]
  | .TypeCheckOnly => [.Typecheck, .DumpAST, .PrintAST, .DumpTypeRefinementContexts]
  | .ModuleIntrospection => [.EmitImportedModules]
  | .BridgingHeader => [.EmitPCH]
  | .SILStage => [.EmitSILGen, .EmitSIL, .EmitSIBGen, .EmitSIB]
  | .ModuleEmission => [.EmitModuleOnly, .MergeModules]
  | .Interpretation => [.Immediate, .REPL]
  | .CodeGeneration => [.EmitAssembly, .EmitIR, .EmitBC, .EmitObject]
  | .None => [.NoneAction]

/-- All nine categories, in the order of the design document. -/
def Category.all : List Category :=
  [.ParseOnly, .TypeCheckOnly, .ModuleIntrospection, .BridgingHeader, .SILStage,
   .ModuleEmission, .Interpretation, .CodeGeneration, .None]

/-- All enumerators of `ActionType`, in declaration order. -/
def ActionType.all : List ActionType :=
  [.NoneAction, .Parse, .Typecheck, .DumpParse, .DumpInterfaceHash, .EmitSyntax,
   .DumpAST, .PrintAST, .DumpScopeMaps, .DumpTypeRefinementContexts,
   .EmitImportedModules, .EmitPCH, .EmitSILGen, .EmitSIL, .EmitModuleOnly,
   .MergeModules, .EmitSIBGen, .EmitSIB, .Immediate, .REPL, .EmitAssembly, .EmitIR,
   .EmitBC, .EmitObject]

/-- Whether the action is listed among the members of the category. -/
def Category.has (c : Category) (a : ActionType) : Bool :=
  c.members.contains a

/-! ## Member functions the header only declares -/

/-- Modelled from the spec: the body of `isActionImmediate` is not among the
sources. The policy field `isImmediate` is "true only for Interpretation", and
"`Interpretation` actions: `isImmediate = true`". -/
def isActionImmediate (a : ActionType) : Bool :=
  Category.Interpretation.has a

/-- Modelled from the spec: the body of `doesActionProduceOutput` is not among
the sources. The policy table gives `producesPrincipalOutput = false` for
`ParseOnly`, `TypeCheckOnly`, `ModuleEmission` and `Interpretation` actions and
`true` for `SILStage` and `CodeGeneration` actions; it is silent on
`ModuleIntrospection`, `BridgingHeader` and `None`, where the answer is the
parameter `unspecified`. -/
def doesActionProduceOutput (unspecified : ActionType → Bool) (a : ActionType) : Bool :=
  if Category.ParseOnly.has a || Category.TypeCheckOnly.has a then false
  else if Category.SILStage.has a then true
  else if Category.ModuleEmission.has a then false
  else if Category.Interpretation.has a then false
  else if Category.CodeGeneration.has a then true
  else unspecified a

/-- Modelled from the spec: the body of `needsProperModuleName` is not among the
sources. The policy table gives `requiresResolvedModuleName = false` for
`ParseOnly`, `TypeCheckOnly` and `Interpretation` actions and `true` for
`ModuleEmission` and `CodeGeneration` actions; it is silent on the other
categories, where the answer is the parameter `unspecified`. -/
def needsProperModuleName (unspecified : ActionType → Bool) (a : ActionType) : Bool :=
  if Category.ParseOnly.has a || Category.TypeCheckOnly.has a then false
  else if Category.ModuleEmission.has a then true
  else if Category.Interpretation.has a then false
  else if Category.CodeGeneration.has a then true
  else unspecified a

/-- Modelled from the spec: the body of `canActionEmitDependencies` is not among
the sources; it is membership of `DependenciesFile` in `permittedAuxKinds`. For
`ParseOnly` and `TypeCheckOnly` actions the set is empty "except Typecheck/DumpAST
may permit DependenciesFile": `Typecheck` permits it (configuring the path "for a
`Typecheck` action yields none" of the warnings), `DumpAST` is left to the
parameter. `CodeGeneration` actions permit it. The table does not decide the
remaining categories, where the answer is the parameter `unspecified`. -/
def canActionEmitDependencies (unspecified : ActionType → Bool) (a : ActionType) : Bool :=
  if Category.ParseOnly.has a then false
  else if Category.TypeCheckOnly.has a then
    (if a = ActionType.Typecheck then true
     else if a = ActionType.DumpAST then unspecified a
     else false)
  else if Category.CodeGeneration.has a then true
  else unspecified a

/-- Modelled from the spec: the body of `hasUnusedDependenciesFilePath` is not
among the sources. A warning is due for an output kind "whose path is non-empty
and which is absent from `policy.permittedAuxKinds`". -/
def hasUnusedDependenciesFilePath (unspecified : ActionType → Bool)
    (o : FrontendOptions) : Bool :=
  !(o.DependenciesFilePath == "") &&
    !canActionEmitDependencies unspecified o.RequestedAction

/-! ## The claim on the bridging-header hash, in the words of the design document -/

/-- The two option records differ in `ModuleName` and in nothing else. -/
def differOnlyInModuleName (a b : FrontendOptions) : Prop :=
  a.ModuleName ≠ b.ModuleName ∧ b = { a with ModuleName := b.ModuleName }

/-- The two option records differ in `EnableResilience` and in nothing else. -/
def differOnlyInEnableResilience (a b : FrontendOptions) : Prop :=
  a.EnableResilience ≠ b.EnableResilience ∧
    b = { a with EnableResilience := b.EnableResilience }

/-- The two option records differ in `EnableTesting` and in nothing else. -/
def differOnlyInEnableTesting (a b : FrontendOptions) : Prop :=
  a.EnableTesting ≠ b.EnableTesting ∧ b = { a with EnableTesting := b.EnableTesting }

/-- The two option records differ in `ImportUnderlyingModule` and in nothing else. -/
def differOnlyInImportUnderlyingModule (a b : FrontendOptions) : Prop :=
  a.ImportUnderlyingModule ≠ b.ImportUnderlyingModule ∧
    b = { a with ImportUnderlyingModule := b.ImportUnderlyingModule }

/-- The hash distinguishes some pair of option records related by `differOnly`. -/
def PCHHashSensitiveTo (hash_value : Int → Nat)
    (differOnly : FrontendOptions → FrontendOptions → Prop) : Prop :=
  ∃ a b, differOnly a b ∧ getPCHHashComponents hash_value a ≠ getPCHHashComponents hash_value b

/-- The requirement of the design notes on a "correct implementation": module
name, resilience mode, testing mode and the underlying-module import flag each
reach the hash. -/
def PCHHashCombinesBridgingOptions (hash_value : Int → Nat) : Prop :=
  PCHHashSensitiveTo hash_value differOnlyInModuleName ∧
  PCHHashSensitiveTo hash_value differOnlyInEnableResilience ∧
  PCHHashSensitiveTo hash_value differOnlyInEnableTesting ∧
  PCHHashSensitiveTo hash_value differOnlyInImportUnderlyingModule

/-! ## Theorems -/

/-- Claim C1: for the two Interpretation actions `Immediate` and `REPL`,
`isActionImmediate` is true and `doesActionProduceOutput` is false, and
`isActionImmediate` is false for every other action. -/
theorem isActionImmediate_exactly_interpretation (unspecified : ActionType → Bool)
    (a : ActionType) :
    (a ∈ [ActionType.Immediate, ActionType.REPL] →
      isActionImmediate a = true ∧ doesActionProduceOutput unspecified a = false) ∧
    (a ∉ [ActionType.Immediate, ActionType.REPL] → isActionImmediate a = false) := by
  cases a <;> simp [isActionImmediate, doesActionProduceOutput, Category.has, Category.members]

/-- Witness of C1 at the action `REPL`, with an oracle that answers `true` wherever
the policy table is silent. -/
theorem isActionImmediate_exactly_interpretation_witness :
    isActionImmediate ActionType.REPL = true ∧
      doesActionProduceOutput (fun _ => true) ActionType.REPL = false :=
  (isActionImmediate_exactly_interpretation (fun _ => true) ActionType.REPL).1 (by decide)

/-- Claim C2: for the two ModuleEmission actions `EmitModuleOnly` and
`MergeModules`, `needsProperModuleName` is true. -/
theorem needsProperModuleName_moduleEmission (unspecified : ActionType → Bool)
    (a : ActionType) (h : a ∈ [ActionType.EmitModuleOnly, ActionType.MergeModules]) :
    needsProperModuleName unspecified a = true := by
  cases a <;> simp [needsProperModuleName, Category.has, Category.members] at h ⊢

/-- Witness of C2 at the action `MergeModules`, with an oracle that answers `false`
wherever the policy table is silent. -/
theorem needsProperModuleName_moduleEmission_witness :
    needsProperModuleName (fun _ => false) ActionType.MergeModules = true :=
  needsProperModuleName_moduleEmission (fun _ => false) ActionType.MergeModules (by decide)

/-- Claim C3: `getPCHHashComponents` is a stub; on every two option records it
returns the same value, the hash of the constant 0. -/
theorem getPCHHashComponents_constant (hash_value : Int → Nat) (o₁ o₂ : FrontendOptions) :
    getPCHHashComponents hash_value o₁ = getPCHHashComponents hash_value o₂ ∧
      getPCHHashComponents hash_value o₁ = hash_value 0 :=
  ⟨rfl, rfl⟩

/-- Claim C4, as stated, fails: whatever `llvm::hash_value` is, the hash does not
combine module name, resilience mode, testing mode and the flag for importing
the underlying module; already two records that differ only in `ModuleName`
never get different hashes. -/
theorem getPCHHashComponents_not_combining :
    ¬ ∃ hash_value : Int → Nat, PCHHashCombinesBridgingOptions hash_value := by
  rintro ⟨hash_value, ⟨a, b, -, hne⟩, -⟩
  exact hne rfl

/-- Claim C4, amended: two option records that differ only in `ModuleName`, only
in `EnableResilience`, only in `EnableTesting` or only in `ImportUnderlyingModule`
have equal `getPCHHashComponents` results. -/
theorem getPCHHashComponents_ignores_bridging_options (hash_value : Int → Nat)
    (a b : FrontendOptions)
    (_h : differOnlyInModuleName a b ∨ differOnlyInEnableResilience a b ∨
      differOnlyInEnableTesting a b ∨ differOnlyInImportUnderlyingModule a b) :
    getPCHHashComponents hash_value a = getPCHHashComponents hash_value b :=
  rfl

/-- Witness of amended C4: the default options against the same options with
`EnableTesting` set, under the hash that maps an integer to its absolute value. -/
theorem getPCHHashComponents_ignores_bridging_options_witness :
    differOnlyInEnableTesting {} { EnableTesting := true } ∧
      getPCHHashComponents Int.natAbs {} =
        getPCHHashComponents Int.natAbs { EnableTesting := true } :=
  have h : differOnlyInEnableTesting {} { EnableTesting := true } := ⟨by decide, rfl⟩
  ⟨h, getPCHHashComponents_ignores_bridging_options Int.natAbs {} { EnableTesting := true }
    (Or.inr (Or.inr (Or.inl h)))⟩

/-- Claim C5: the nine groups of the design document partition `ActionType`:
every enumerator lies in exactly one group, no group lists an action twice, and
the groups together list the 24 enumerators and nothing else. -/
theorem category_membership_total_exclusive :
    (∀ a : ActionType, ∃! c : Category, a ∈ c.members) ∧
    (∀ c : Category, c.members.Nodup) ∧
    (∀ a : ActionType, a ∈ ActionType.all) ∧
    (∀ (c : Category) (a : ActionType), a ∈ c.members → a ∈ ActionType.all) ∧
    ((Category.all.map Category.members).flatten.length = ActionType.all.length) := by
  refine ⟨?_, ?_, ?_, ?_, ?_⟩
  · intro a
    cases a <;>
      first
      | exact ⟨Category.ParseOnly, by decide, fun c hc => by cases c <;> simp_all [Category.members]⟩
      | exact ⟨Category.TypeCheckOnly, by decide, fun c hc => by cases c <;> simp_all [Category.members]⟩
      | exact ⟨Category.ModuleIntrospection, by decide, fun c hc => by cases c <;> simp_all [Category.members]⟩
      | exact ⟨Category.BridgingHeader, by decide, fun c hc => by cases c <;> simp_all [Category.members]⟩
      | exact ⟨Category.SILStage, by decide, fun c hc => by cases c <;> simp_all [Category.members]⟩
      | exact ⟨Category.ModuleEmission, by decide, fun c hc => by cases c <;> simp_all [Category.members]⟩
      | exact ⟨Category.Interpretation, by decide, fun c hc => by cases c <;> simp_all [Category.members]⟩
      | exact ⟨Category.CodeGeneration, by decide, fun c hc => by cases c <;> simp_all [Category.members]⟩
      | exact ⟨Category.None, by decide, fun c hc => by cases c <;> simp_all [Category.members]⟩
  · intro c
    cases c <;> decide
  · intro a
    cases a <;> decide
  · intro c a _
    cases a <;> decide
  · decide

/-- Claim C6: `isCompilingExactlyOneSwiftFile` is true exactly when `InputKind` is
`IFK_Swift` and `hasSingleInput()` holds; it is false for every other input kind,
and false when the number of inputs is zero or at least two. -/
theorem isCompilingExactlyOneSwiftFile_iff (o : FrontendOptions) :
    (isCompilingExactlyOneSwiftFile o = true ↔
      (o.InputKind = InputFileKind.IFK_Swift ∧ o.InputsAndOutputs.hasSingleInput = true)) ∧
    (o.InputKind ≠ InputFileKind.IFK_Swift → isCompilingExactlyOneSwiftFile o = false) ∧
    (o.InputsAndOutputs.AllInputs.length = 0 ∨ 2 ≤ o.InputsAndOutputs.AllInputs.length →
      isCompilingExactlyOneSwiftFile o = false) := by
  refine ⟨?_, ?_, ?_⟩
  · simp [isCompilingExactlyOneSwiftFile]
  · intro h
    simp [isCompilingExactlyOneSwiftFile, h]
  · intro h
    have hne : o.InputsAndOutputs.AllInputs.length ≠ 1 := by omega
    simp [isCompilingExactlyOneSwiftFile, FrontendInputsAndOutputs.hasSingleInput, hne]

/-- Witness of C6: one input of a kind other than Swift source, and two inputs of
Swift source, are both refused. -/
theorem isCompilingExactlyOneSwiftFile_iff_witness :
    isCompilingExactlyOneSwiftFile
        { InputKind := InputFileKind.other 0,
          InputsAndOutputs := { AllInputs := [{ sourcePath := "a.sil" }] } } = false ∧
      isCompilingExactlyOneSwiftFile
        { InputsAndOutputs :=
            { AllInputs := [{ sourcePath := "a.swift" }, { sourcePath := "b.swift" }] } } = false :=
  ⟨(isCompilingExactlyOneSwiftFile_iff
      { InputKind := InputFileKind.other 0,
        InputsAndOutputs := { AllInputs := [{ sourcePath := "a.sil" }] } }).2.1 (by decide),
   (isCompilingExactlyOneSwiftFile_iff
      { InputsAndOutputs :=
          { AllInputs := [{ sourcePath := "a.swift" }, { sourcePath := "b.swift" }] } }).2.2
      (Or.inr (by decide))⟩

/-- Claim C7: with a non-empty `DependenciesFilePath` the path is unused for each
ParseOnly action and used for `Typecheck`; `canActionEmitDependencies` is false
for each ParseOnly action and true for `Typecheck`; with an empty path nothing is
unused, whatever the action. -/
theorem hasUnusedDependenciesFilePath_parseOnly_typecheck
    (unspecified : ActionType → Bool) (o : FrontendOptions) :
    (o.DependenciesFilePath ≠ "" →
      (o.RequestedAction ∈ [ActionType.Parse, ActionType.DumpParse,
          ActionType.DumpInterfaceHash, ActionType.EmitSyntax, ActionType.DumpScopeMaps] →
        hasUnusedDependenciesFilePath unspecified o = true) ∧
      (o.RequestedAction = ActionType.Typecheck →
        hasUnusedDependenciesFilePath unspecified o = false)) ∧
    (∀ a ∈ [ActionType.Parse, ActionType.DumpParse, ActionType.DumpInterfaceHash,
        ActionType.EmitSyntax, ActionType.DumpScopeMaps],
      canActionEmitDependencies unspecified a = false) ∧
    canActionEmitDependencies unspecified ActionType.Typecheck = true ∧
    (o.DependenciesFilePath = "" → hasUnusedDependenciesFilePath unspecified o = false) := by
  have hparse : ∀ a ∈ [ActionType.Parse, ActionType.DumpParse, ActionType.DumpInterfaceHash,
      ActionType.EmitSyntax, ActionType.DumpScopeMaps],
      canActionEmitDependencies unspecified a = false := by
    intro a ha
    cases a <;> simp [canActionEmitDependencies, Category.has, Category.members] at ha ⊢
  have htc : canActionEmitDependencies unspecified ActionType.Typecheck = true := by
    simp [canActionEmitDependencies, Category.has, Category.members]
  refine ⟨fun hne => ⟨fun hmem => ?_, fun heq => ?_⟩, hparse, htc, fun hempty => ?_⟩
  · simp [hasUnusedDependenciesFilePath, hne, hparse _ hmem]
  · simp [hasUnusedDependenciesFilePath, heq, htc]
  · simp [hasUnusedDependenciesFilePath, hempty]

/-- Witness of C7: the path `deps.d` is unused under `DumpParse`, with an oracle
that answers `true` wherever the policy table is silent. -/
theorem hasUnusedDependenciesFilePath_parseOnly_typecheck_witness :
    hasUnusedDependenciesFilePath (fun _ => true)
      { DependenciesFilePath := "deps.d", RequestedAction := ActionType.DumpParse } = true :=
  ((hasUnusedDependenciesFilePath_parseOnly_typecheck (fun _ => true)
      { DependenciesFilePath := "deps.d", RequestedAction := ActionType.DumpParse }).1
    (by decide)).1 (by decide)

/-- Claim C9: two option records with the same `RequestedAction` get the same
`isCreatingSIL`, whatever their other members. -/
theorem isCreatingSIL_depends_only_on_action (o₁ o₂ : FrontendOptions)
    (h : o₁.RequestedAction = o₂.RequestedAction) :
    isCreatingSIL o₁ = isCreatingSIL o₂ := by
  unfold isCreatingSIL
  rw [h]

/-- Witness of C9: two records requesting `EmitSIL` that differ in module name,
input kind, inputs, an output path and a flag. -/
theorem isCreatingSIL_depends_only_on_action_witness :
    isCreatingSIL { RequestedAction := ActionType.EmitSIL } =
      isCreatingSIL
        { RequestedAction := ActionType.EmitSIL, ModuleName := "M",
          InputKind := InputFileKind.other 1,
          InputsAndOutputs := { AllInputs := [{ sourcePath := "m.sil" }] },
          ModuleOutputPath := "out/M.swiftmodule", EnableTesting := true } :=
  isCreatingSIL_depends_only_on_action _ _ rfl

/-- Claim C10: `isCreatingSIL` is the comparison of underlying values with
`EmitSILGen`; it is true exactly for the twelve actions from `EmitSILGen` on,
which are the SILStage, ModuleEmission, Interpretation and CodeGeneration actions,
false exactly for the other twelve, and false for default-constructed options. -/
theorem isCreatingSIL_exactly (o : FrontendOptions) :
    (isCreatingSIL o = true ↔ ActionType.EmitSILGen.toNat ≤ o.RequestedAction.toNat) ∧
    (isCreatingSIL o = true ↔
      o.RequestedAction ∈ [ActionType.EmitSILGen, ActionType.EmitSIL,
        ActionType.EmitModuleOnly, ActionType.MergeModules, ActionType.EmitSIBGen,
        ActionType.EmitSIB, ActionType.Immediate, ActionType.REPL, ActionType.EmitAssembly,
        ActionType.EmitIR, ActionType.EmitBC, ActionType.EmitObject]) ∧
    (isCreatingSIL o = true ↔
      o.RequestedAction ∈ Category.SILStage.members ++ Category.ModuleEmission.members ++
        Category.Interpretation.members ++ Category.CodeGeneration.members) ∧
    (isCreatingSIL o = false ↔
      o.RequestedAction ∈ [ActionType.NoneAction, ActionType.Parse, ActionType.Typecheck,
        ActionType.DumpParse, ActionType.DumpInterfaceHash, ActionType.EmitSyntax,
        ActionType.DumpAST, ActionType.PrintAST, ActionType.DumpScopeMaps,
        ActionType.DumpTypeRefinementContexts, ActionType.EmitImportedModules,
        ActionType.EmitPCH]) ∧
    isCreatingSIL {} = false ∧
    ({} : FrontendOptions).RequestedAction = ActionType.NoneAction := by
  refine ⟨?_, ?_, ?_, ?_, rfl, rfl⟩
  · simp [isCreatingSIL]
  all_goals
    unfold isCreatingSIL
    generalize o.RequestedAction = a
    cases a <;> simp [ActionType.toNat, Category.members]

end FrontendOptions

end swift
